import Mathlib

/-!
Shallow embedding of the WhatsApp voice-order webhook
(`src/OrderWebhook/__init__.py`).

The module is an Azure Functions HTTP handler `main` that

  1. reads required environment variables and fails fast (HTTP 500) when one
     is missing (lines 30-50);
  2. extracts `MediaUrl0`/`MediaUrl` and `From` from the request form and
     returns HTTP 400 "No media found" when no media URL is present
     (lines 71-76);
  3. downloads the voice file (`download_voice`), uploads it to blob storage
     (`upload_to_blob`), transcribes it (`transcribe_audio`), parses the
     transcript (`parse_order`), appends a row to an Excel workbook in blob
     storage (`log_to_excel`) and answers HTTP 200 with a JSON body
     (lines 78-127).  The optional Twilio confirmation (`send_confirmation`,
     line 110) is commented out in the source and therefore never runs.

External effects (HTTP downloads, blob storage, the Speech SDK, the Azure
OpenAI chat call, the workbook save) are modelled as oracle values carried in
a `World` record; each pure decision the Python code makes on the oracle
results is translated directly.  Python values travelling through JSON are
modelled by the `Json` type below; JSON numbers are modelled as integers
(fractional backend output is outside the model).  Character classes are
modelled exactly on the scope the patterns name: ASCII plus the Arabic block
U+0600-U+06FF.  Within that scope `\d` matches the ASCII digits and the two
decimal-digit ranges of the Arabic block, `\w` matches alphanumerics and the
underscore (the Arabic letters and digits, not the punctuation, signs or
combining marks of the block; Unicode 14.0 classification), `int(...)`
accepts any scope digits with single-underscore grouping, and `str.lower()`
is the ASCII case map (Arabic has no case).  Characters outside this scope
(other Unicode scripts) are outside the model.
-/

/-- JSON/Python values as produced by `json.loads` and returned by
`parse_order` (the code only ever builds two-field dicts, but backend output
may be any JSON value). -/
inductive Json where
  | null
  | bool (b : Bool)
  | num (n : Int)
  | str (s : String)
  | arr (elems : List Json)
  | obj (fields : List (String × Json))

/-- True exactly for `Json.str` values (Python `isinstance(item, str)`). -/
def Json.isStr : Json → Bool
  | Json.str _ => true
  | _ => false

/-- `dict.get` on the association list of a parsed JSON object
(`json.loads` already collapses duplicate keys, so plain first-match lookup
is faithful). -/
def pyGet : List (String × Json) → String → Option Json
  | [], _ => none
  | kv :: rest, key => if kv.1 = key then some kv.2 else pyGet rest key

/-- `order.get(key)` on a parse result: `Json.null` plays the Python value None. -/
def jsonObjGet (j : Json) (key : String) : Json :=
  match j with
  | Json.obj o => (pyGet o key).getD Json.null
  | _ => Json.null

/-- Truthiness of an optional environment/form string: `None` and `""` are
falsy, every other string is truthy (Python `if not x` / `all([...])`). -/
def truthy : Option String → Bool
  | none => false
  | some s => !(s == "")

/-- `dict.get` for the request form (string values). -/
def lookupStr : List (String × String) → String → Option String
  | [], _ => none
  | kv :: rest, key => if kv.1 = key then some kv.2 else lookupStr rest key

/-- Python `a or b or ... or ""`: the first truthy string, else `""`. -/
def firstTruthy : List (Option String) → String
  | [] => ""
  | a :: rest =>
    match a with
    | some s => if s == "" then firstTruthy rest else s
    | none => firstTruthy rest

/-- Line 71: `form.get("MediaUrl0") or form.get("MediaUrl") or ""`. -/
def mediaUrl (form : List (String × String)) : String :=
  firstTruthy [lookupStr form "MediaUrl0", lookupStr form "MediaUrl"]

/-- Line 72: `form.get("From") or ""`. -/
def fromNumber (form : List (String × String)) : String :=
  firstTruthy [lookupStr form "From"]

/-! ## Character classes of the two fallback regular expressions -/

/-- Regex `\d` under `re.UNICODE` on the model scope: the ASCII digits
plus the decimal digits of the Arabic block — the Arabic-Indic digits
U+0660-U+0669 and the extended Arabic-Indic digits U+06F0-U+06F9 (its only
Unicode-decimal characters). -/
def isPyDigit (c : Char) : Bool :=
  c.isDigit ||
  decide (0x660 ≤ c.toNat ∧ c.toNat ≤ 0x669) ||
  decide (0x6F0 ≤ c.toNat ∧ c.toNat ≤ 0x6F9)

/-- The numeric value of a scope decimal digit (`int` accepts any mix of
digit scripts: `int("2٣") = 23`). -/
def digitValue (c : Char) : Nat :=
  if c.isDigit then c.toNat - 48
  else if decide (0x660 ≤ c.toNat ∧ c.toNat ≤ 0x669) then c.toNat - 0x660
  else c.toNat - 0x6F0

/-- Regex `\s` and the characters stripped by `str.strip()`. -/
def isPySpace (c : Char) : Bool :=
  c == ' ' || c == '\t' || c == '\n' || c == '\r' || c == '\x0b' || c == '\x0c'

/-- The Arabic block `؀-ۿ` named by both patterns. -/
def isArabicChar (c : Char) : Bool :=
  decide (0x600 ≤ c.toNat ∧ c.toNat ≤ 0x6FF)

/-- First character of the item group: `[A-Za-z؀-ۿ]`. -/
def isItemStart (c : Char) : Bool :=
  c.isUpper || c.isLower || isArabicChar c

/-- The alphanumeric characters of the Arabic block: its letters and
decimal digits — not its punctuation, currency/format signs or combining
marks (Unicode 14.0 general categories, as the CPython word-character
predicate classifies them). -/
def isArabicWordChar (c : Char) : Bool :=
  decide (0x620 ≤ c.toNat ∧ c.toNat ≤ 0x64A) ||
  decide (0x660 ≤ c.toNat ∧ c.toNat ≤ 0x669) ||
  decide (0x66E ≤ c.toNat ∧ c.toNat ≤ 0x66F) ||
  decide (0x671 ≤ c.toNat ∧ c.toNat ≤ 0x6D3) ||
  decide (c.toNat = 0x6D5) ||
  decide (0x6E5 ≤ c.toNat ∧ c.toNat ≤ 0x6E6) ||
  decide (0x6EE ≤ c.toNat ∧ c.toNat ≤ 0x6FC) ||
  decide (c.toNat = 0x6FF)

/-- Regex `\w` under `re.UNICODE` on the model scope: alphanumeric or
underscore.  So U+060C (the Arabic comma) and the harakat marks are not
word characters, while the Arabic letters and digits are. -/
def isWordChar (c : Char) : Bool :=
  c.isAlphanum || c == '_' || isArabicWordChar c

/-- Trailing class of the item group: `[\w؀-ۿ\s-]`. -/
def isItemTail (c : Char) : Bool :=
  isWordChar c || isPySpace c || c == '-'

/-- Numeric value of a digit run (Python `int` on a matched `\d+` group;
no overflow in Python). -/
def digitsToNat (ds : List Char) : Nat :=
  ds.foldl (fun a c => a * 10 + digitValue c) 0

/-- `str.strip()`: drop leading and trailing whitespace. -/
def pyStrip (s : String) : String :=
  String.mk (((s.data.dropWhile isPySpace).reverse.dropWhile isPySpace).reverse)

/-- `str.lower()` (ASCII case mapping; the model scope, see header). -/
def pyLower (s : String) : String :=
  String.mk (s.data.map Char.toLower)

/-- Digit tail of Python `int(string)` with single-underscore grouping:
every underscore must stand between two digits (`int("1_0") = 10`, while
`"1_"`, `"_1"` and `"1__0"` raise ValueError). -/
def digitsCore : Nat → List Char → Option Nat
  | acc, [] => some acc
  | acc, '_' :: c :: rest =>
      if isPyDigit c then digitsCore (acc * 10 + digitValue c) rest else none
  | _, ['_'] => none
  | acc, c :: rest =>
      if isPyDigit c then digitsCore (acc * 10 + digitValue c) rest else none

/-- Helper for Python `int(string)` after the optional sign: a nonempty
digit run, underscore grouping allowed. -/
def parseIntDigits (ds : List Char) : Option Int :=
  match ds with
  | [] => none
  | c :: rest =>
    if isPyDigit c then (digitsCore (digitValue c) rest).map Int.ofNat
    else none

/-- Python `int(...)` on a string: surrounding whitespace ignored, optional
sign, scope digits with single-underscore grouping. -/
def pyIntOfStr (s : String) : Option Int :=
  match (pyStrip s).data with
  | '-' :: ds => (parseIntDigits ds).map (fun n => -n)
  | '+' :: ds => parseIntDigits ds
  | ds => parseIntDigits ds

/-- Python `int(v)` on a JSON value; `none` models the `TypeError` /
`ValueError` that the source catches (lines 302-305). -/
def pyInt : Json → Option Int
  | Json.num n => some n
  | Json.bool b => some (if b then 1 else 0)
  | Json.str s => pyIntOfStr s
  | _ => none

/-! ## The regex fallback of `parse_order` (lines 316-327)

`re.search` semantics: start positions are tried left to right; at a start
position the quantifiers are greedy.  For both patterns greedy matching
cannot fail where backtracking would succeed, because adjacent pieces use
disjoint character classes (`\d`/`\s`, `\s`/the item-start letter), so the
maximal-run translation below is exact. -/

/-- Attempt `(\d+)\s+([A-Za-z؀-ۿ][\w؀-ۿ\s-]*)` at the
head of the list; returns (value of group 1, raw group 2). -/
def matchDigitsAt (l : List Char) : Option (Nat × String) :=
  let ds := l.takeWhile isPyDigit
  match ds with
  | [] => none
  | _ =>
    let r1 := l.drop ds.length
    let ws := r1.takeWhile isPySpace
    match ws with
    | [] => none
    | _ =>
      match r1.drop ws.length with
      | [] => none
      | c :: rest =>
        if isItemStart c then
          some (digitsToNat ds, String.mk (c :: rest.takeWhile isItemTail))
        else none

/-- `re.search` of the digit pattern (line 318). -/
def searchDigits : List Char → Option (Nat × String)
  | [] => none
  | c :: cs =>
    match matchDigitsAt (c :: cs) with
    | some r => some r
    | none => searchDigits cs

/-- `words_to_num` (line 322), in insertion order (the order of the regex
alternation built from its keys).  No word is a prefix of another, so at any
position at most one alternative matches. -/
def numberWords : List (String × Nat) :=
  [("one", 1), ("two", 2), ("three", 3), ("four", 4), ("five", 5),
   ("six", 6), ("seven", 7), ("eight", 8), ("nine", 9), ("ten", 10)]

/-- Case-insensitive "starts with" (the `re.IGNORECASE` flag of line 323);
the second argument is the lowercase word. -/
def lowerStartsWith : List Char → List Char → Bool
  | _, [] => true
  | [], _ :: _ => false
  | c :: cs, d :: ds => (c.toLower == d) && lowerStartsWith cs ds

/-- Attempt `\b(one|...|ten)\b\s+([A-Za-z؀-ۿ][...]*)` at the head
of the list.  `prevIsWord` carries the character class of the previous
character for the leading `\b`; the trailing `\b` is subsumed by `\s+`
(whitespace is a non-word character, and at end of input `\s+` fails). -/
def matchWordsAt (prevIsWord : Bool) (l : List Char) : Option (Nat × String) :=
  if prevIsWord then none
  else
    match numberWords.find? (fun wn => lowerStartsWith l wn.1.data) with
    | none => none
    | some wn =>
      let r1 := l.drop wn.1.length
      let ws := r1.takeWhile isPySpace
      match ws with
      | [] => none
      | _ =>
        match r1.drop ws.length with
        | [] => none
        | c :: rest =>
          if isItemStart c then
            some (wn.2, String.mk (c :: rest.takeWhile isItemTail))
          else none

/-- Left-to-right scan for the word pattern, tracking the `\b` context. -/
def searchWordsAux : Bool → List Char → Option (Nat × String)
  | _, [] => none
  | prevIsWord, c :: cs =>
    match matchWordsAt prevIsWord (c :: cs) with
    | some r => some r
    | none => searchWordsAux (isWordChar c) cs

/-- `re.search` of the spelled-number pattern (line 323); the start of the
string is a word boundary. -/
def searchWords (l : List Char) : Option (Nat × String) :=
  searchWordsAux false l

/-- The value returned at line 329: `{"quantity": None, "item": None}`. -/
def noItemsOrder : Json :=
  Json.obj [("quantity", Json.null), ("item", Json.null)]

/-- Lines 316-329: the regex fallback.  Group 2 is stripped then lowercased
(`m.group(2).strip().lower()`); `re.search` with a string argument cannot
raise, so the surrounding `except` (line 326) is dead for string input and
line 329 is reached exactly when neither pattern matches. -/
def regexFallback (text : String) : Json :=
  match searchDigits text.data with
  | some qi => Json.obj [("quantity", Json.num (Int.ofNat qi.1)),
                         ("item", Json.str (pyLower (pyStrip qi.2)))]
  | none =>
    match searchWords text.data with
    | some qi => Json.obj [("quantity", Json.num (Int.ofNat qi.1)),
                           ("item", Json.str (pyLower (pyStrip qi.2)))]
    | none => noItemsOrder

/-- Outcome of the Azure OpenAI chat call, as the code discriminates it:
* `raises` — client import/construction or the API call raises
  (caught at line 312, falls through to the regex parser);
* `contentNoJson` — a content string was obtained but `re.search(r"\{.*\}")`
  finds no JSON substring (line 311), or `json.loads` on the substring
  raises (also caught at line 312): both fall through to the regex parser;
* `contentJson o` — the extracted substring parses; a string matching
  `\{.*\}` that `json.loads` accepts is always a JSON object, carried here
  as its field list. -/
inductive BackendOutcome where
  | raises
  | contentNoJson
  | contentJson (o : List (String × Json))

/-- Lines 301-305: `qty = obj.get("quantity")`, then
`int(qty) if qty is not None else None`, any failure coerced to `None`. -/
def normQuantity (v : Json) : Json :=
  match v with
  | Json.null => Json.null
  | v =>
    match pyInt v with
    | some n => Json.num n
    | none => Json.null

/-- Lines 306-308: `item = obj.get("item")`; only string values are
stripped and lowercased, every other value is returned unchanged. -/
def normItem (v : Json) : Json :=
  match v with
  | Json.str s => Json.str (pyLower (pyStrip s))
  | v => v

/-- Lines 261-329: `parse_order(transcribed_text, openai_endpoint,
openai_key, openai_deployment)`.  The backend is consulted only when all
three settings are truthy (line 270); its outcome is the `bo` oracle.  On a
parsed JSON object the dict `{"quantity": ..., "item": ...}` of line 309 is
returned; every other outcome falls back to the regex parser.  The Lean
function is total: every raising operation of the source sits under a
`try`/`except` whose handler is translated. -/
def parse_order (text : String) (ep key dep : Option String)
    (bo : BackendOutcome) : Json :=
  if (truthy ep && truthy key && truthy dep) = true then
    match bo with
    | BackendOutcome.contentJson o =>
        Json.obj [("quantity", normQuantity ((pyGet o "quantity").getD Json.null)),
                  ("item", normItem ((pyGet o "item").getD Json.null))]
    | _ => regexFallback text
  else regexFallback text

/-! ## `transcribe_audio` (lines 175-258) -/

/-- Outcome of the Speech SDK portion of `transcribe_audio`: a failed SDK
module load (line 217), recognized text (line 243, `result.text or ""`
modelled by the carried string), no match (line 246), canceled (line 249). -/
inductive SpeechOutcome where
  | sdkImportFails
  | recognized (t : String)
  | noMatch
  | canceled

/-- Oracle for `transcribe_audio`: whether downloading the blob copy to the
local temp file succeeds (lines 189-200; `main` always passes a truthy
`conn_str`, so the `requests` branch of lines 202-209 is not reachable from
`main`), and what the Speech SDK does. -/
structure TranscribeWorld where
  blobFetch : Except Unit Unit
  speech : SpeechOutcome

/-- Lines 175-258.  A blob-fetch failure propagates as an exception; with an
untruthy speech key or region the function returns `""` (line 252); the SDK
outcomes of lines 241-249 return the recognized text or `""`.  The
`try`/`finally` of lines 253-258 removes the local temp copy on every one of
these paths, which is why no temp-file flag needs to escape this function
(see `Effects.speechTempLive`). -/
def transcribe_audio (tw : TranscribeWorld) (speechKey speechRegion : Option String) :
    Except Unit String :=
  match tw.blobFetch with
  | Except.error _ => Except.error ()
  | Except.ok _ =>
    if (truthy speechKey && truthy speechRegion) = true then
      match tw.speech with
      | SpeechOutcome.sdkImportFails => Except.ok ""
      | SpeechOutcome.recognized t => Except.ok t
      | SpeechOutcome.noMatch => Except.ok ""
      | SpeechOutcome.canceled => Except.ok ""
    else Except.ok ""

/-! ## `log_to_excel` (lines 332-372) -/

/-- Oracle for `log_to_excel`: the blob download of the existing workbook
(carrying its rows on success), and whether `load_workbook`, `wb.save` and
the blob upload succeed. -/
structure LogWorld where
  fetch : Except Unit (List (List Json))
  loadOk : Bool
  saveOk : Bool
  uploadOk : Bool

/-- Line 353: the header row appended to a freshly created workbook. -/
def excelHeader : List Json :=
  [Json.str "timestamp_utc", Json.str "customer_number",
   Json.str "item", Json.str "quantity"]

/-- Line 359: the appended record
`[utcnow().isoformat(), customer_number, order.get("item"), order.get("quantity")]`. -/
def orderRow (ts customer : String) (order : Json) : List Json :=
  [Json.str ts, Json.str customer, jsonObjGet order "item", jsonObjGet order "quantity"]

/-- Lines 332-372.  The temp path of line 343 is created by `open(...)` at
line 346 in every run (also when the download then fails).  A download
failure is caught and a new workbook with the header row replaces it
(lines 349-353); a `load_workbook`, `wb.save` or upload failure raises out
of the function.  The cleanup of lines 368-372 runs only after a successful
upload — it is NOT in a `finally` — so the boolean result (temp file still
on disk) is `true` exactly on the raising paths.  Returns (rows of the
uploaded workbook or the propagated exception, temp-file-alive flag). -/
def log_to_excel (order : Json) (customer : String) (ts : String)
    (lw : LogWorld) : Except Unit (List (List Json)) × Bool :=
  match lw.fetch with
  | Except.error _ =>
    let rows := [excelHeader, orderRow ts customer order]
    if lw.saveOk then
      if lw.uploadOk then (Except.ok rows, false) else (Except.error (), true)
    else (Except.error (), true)
  | Except.ok rows0 =>
    if lw.loadOk then
      let rows := rows0 ++ [orderRow ts customer order]
      if lw.saveOk then
        if lw.uploadOk then (Except.ok rows, false) else (Except.error (), true)
      else (Except.error (), true)
    else (Except.error (), true)

/-- Whether `log_to_excel` raises, as a function of its oracle alone (its
success never depends on the order row being written). -/
def logFails (lw : LogWorld) : Bool :=
  match lw.fetch with
  | Except.error _ => !lw.saveOk || !lw.uploadOk
  | Except.ok _ => !lw.loadOk || !lw.saveOk || !lw.uploadOk

/-- The rows `log_to_excel` uploads when it succeeds. -/
def logRows (order : Json) (customer ts : String) (lw : LogWorld) :
    List (List Json) :=
  match lw.fetch with
  | Except.error _ => [excelHeader, orderRow ts customer order]
  | Except.ok rows0 => rows0 ++ [orderRow ts customer order]

/-! ## `main` (lines 25-127) -/

/-- The environment variables read at lines 30-46 (`os.environ.get`, so a
missing variable is `none` and set-but-empty is `some ""`). -/
structure Env where
  blobConnStr : Option String
  blobContainer : Option String
  excelBlobName : Option String
  speechKey : Option String
  speechRegion : Option String
  speechLanguages : Option String
  openaiEndpoint : Option String
  openaiKey : Option String
  openaiDeployment : Option String
  twilioSid : Option String
  twilioAuth : Option String

/-- Line 48: `all([BLOB_CONN_STR, BLOB_CONTAINER, EXCEL_BLOB_NAME,
AZURE_OPENAI_ENDPOINT, AZURE_OPENAI_KEY, TWILIO_AUTH, TWILIO_SID])`.
`AZURE_OPENAI_DEPLOYMENT`, the speech settings and `AZURE_SPEECH_LANGUAGES`
are not in the list. -/
def envOk (e : Env) : Bool :=
  truthy e.blobConnStr && truthy e.blobContainer && truthy e.excelBlobName &&
  truthy e.openaiEndpoint && truthy e.openaiKey &&
  truthy e.twilioAuth && truthy e.twilioSid

/-- Outcome of `download_voice` (lines 132-149): the file is opened at
line 144 only after `raise_for_status`, so a failure can happen before the
temp file exists (`failNoFile`) or while streaming chunks into it
(`failAfterCreate`).  In the latter case the exception skips the inner
`try`/`finally` (entered only at line 82) and the file is never removed. -/
inductive DownloadOutcome where
  | ok (path : String)
  | failNoFile
  | failAfterCreate

/-- The full oracle for one request. -/
structure World where
  download : DownloadOutcome
  upload : Except Unit String
  tw : TranscribeWorld
  backend : BackendOutcome
  log : LogWorld
  now : String

/-- Which downstream steps ran and which local temp files are still on disk
when the handler returns. -/
structure Effects where
  downloadCalled : Bool := false
  uploadCalled : Bool := false
  transcribeCalled : Bool := false
  parseCalled : Bool := false
  logCalled : Bool := false
  notifyCalled : Bool := false
  audioTempLive : Bool := false
  speechTempLive : Bool := false
  excelTempLive : Bool := false
deriving DecidableEq

/-- No downstream step ran, nothing on disk. -/
def noEffects : Effects := {}

/-- An HTTP response body: plain text, or the `json.dumps` of a value. -/
inductive Body where
  | text (s : String)
  | json (j : Json)

/-- `func.HttpResponse(body, status_code)`. -/
structure Response where
  status : Nat
  body : Body

namespace OrderWebhook

/-- Lines 25-127, `main(req)`.  The request is taken at the level of the
form dictionary the plumbing of lines 52-69 produces.  The outer `try` of
line 26 turns every uncaught exception into HTTP 500 "Internal server
error"; the inner `finally` of lines 114-120 removes the downloaded audio
file on every path that entered the inner `try`, and the `finally` inside
`transcribe_audio` removes its temp copy likewise, so only the two leaks
documented at `DownloadOutcome.failAfterCreate` and `log_to_excel` can
leave a file behind.  `send_confirmation` (line 110) is commented out, so
`notifyCalled` is never set. -/
def main (env : Env) (form : List (String × String)) (w : World) :
    Response × Effects :=
  if envOk env = false then
    (⟨500, Body.text "Missing environment variables"⟩, noEffects)
  else
    let media_url := mediaUrl form
    let from_number := fromNumber form
    if media_url = "" then
      (⟨400, Body.text "No media found"⟩, noEffects)
    else
      match w.download with
      | DownloadOutcome.failNoFile =>
          (⟨500, Body.text "Internal server error"⟩,
           { downloadCalled := true })
      | DownloadOutcome.failAfterCreate =>
          (⟨500, Body.text "Internal server error"⟩,
           { downloadCalled := true, audioTempLive := true })
      | DownloadOutcome.ok _path =>
          match w.upload with
          | Except.error _ =>
              (⟨500, Body.text "Internal server error"⟩,
               { downloadCalled := true, uploadCalled := true })
          | Except.ok blob_url =>
              match transcribe_audio w.tw env.speechKey env.speechRegion with
              | Except.error _ =>
                  (⟨500, Body.text "Internal server error"⟩,
                   { downloadCalled := true, uploadCalled := true,
                     transcribeCalled := true })
              | Except.ok transcription =>
                  let order := parse_order transcription env.openaiEndpoint
                    env.openaiKey env.openaiDeployment w.backend
                  match log_to_excel order from_number w.now w.log with
                  | (Except.error _, leak) =>
                      (⟨500, Body.text "Internal server error"⟩,
                       { downloadCalled := true, uploadCalled := true,
                         transcribeCalled := true, parseCalled := true,
                         logCalled := true, excelTempLive := leak })
                  | (Except.ok _, leak) =>
                      (⟨200, Body.json (Json.obj
                          [("status", Json.str "ok"), ("order", order),
                           ("blob_url", Json.str blob_url)])⟩,
                       { downloadCalled := true, uploadCalled := true,
                         transcribeCalled := true, parseCalled := true,
                         logCalled := true, excelTempLive := leak })

end OrderWebhook

/-! ## Specification-side definitions used for comparison -/

/-- The log header as the specification words it: columns
`[timestamp, customer, item summary, total]` (spec, "Persisted state").
Used only to compare against `excelHeader`, the header the code writes. -/
def specLogHeader : List Json :=
  [Json.str "timestamp", Json.str "customer",
   Json.str "item summary", Json.str "total"]

/-- The response body the specification claims for full success:
`{"status": "success"}`.  Used only to compare against the body `main`
builds. -/
def specSuccessBody : Json :=
  Json.obj [("status", Json.str "success")]

/-! ## Helper lemmas -/

/-- `log_to_excel`, restated through `logFails`/`logRows`. -/
theorem log_to_excel_eq (o : Json) (c t : String) (lw : LogWorld) :
    log_to_excel o c t lw =
      if logFails lw = true then (Except.error (), true)
      else (Except.ok (logRows o c t lw), false) := by
  obtain ⟨f, ld, sv, up⟩ := lw
  cases f <;> cases ld <;> cases sv <;> cases up <;> rfl

/-- The regex fallback always returns a two-key dict whose quantity is an
integer or null and whose item is null or a stripped-lowercased string. -/
theorem regexFallback_shape (text : String) :
    ∃ q it, regexFallback text = Json.obj [("quantity", q), ("item", it)] ∧
      (q = Json.null ∨ ∃ n, q = Json.num n) ∧
      (it = Json.null ∨ ∃ s, it = Json.str (pyLower (pyStrip s))) := by
  unfold regexFallback
  cases h1 : searchDigits text.data with
  | some qi => exact ⟨_, _, rfl, Or.inr ⟨_, rfl⟩, Or.inr ⟨_, rfl⟩⟩
  | none =>
    cases h2 : searchWords text.data with
    | some qi => exact ⟨_, _, rfl, Or.inr ⟨_, rfl⟩, Or.inr ⟨_, rfl⟩⟩
    | none => exact ⟨Json.null, Json.null, rfl, Or.inl rfl, Or.inl rfl⟩

/-- The normalized quantity is always an integer or null. -/
theorem normQuantity_shape (v : Json) :
    normQuantity v = Json.null ∨ ∃ n, normQuantity v = Json.num n := by
  cases v with
  | null => exact Or.inl rfl
  | bool b => cases hp : pyInt (Json.bool b) <;> simp [normQuantity, hp]
  | num n => cases hp : pyInt (Json.num n) <;> simp [normQuantity, hp]
  | str s => cases hp : pyInt (Json.str s) <;> simp [normQuantity, hp]
  | arr xs => cases hp : pyInt (Json.arr xs) <;> simp [normQuantity, hp]
  | obj o => cases hp : pyInt (Json.obj o) <;> simp [normQuantity, hp]

/-- A missing (null) or unconvertible quantity normalizes to null. -/
theorem normQuantity_null_of (v : Json) (h : v = Json.null ∨ pyInt v = none) :
    normQuantity v = Json.null := by
  rcases h with h | h
  · subst h; rfl
  · cases v with
    | null => rfl
    | bool b => exact absurd h (by cases b <;> simp [pyInt])
    | num n => exact absurd h (by simp [pyInt])
    | str s => simp [normQuantity, h]
    | arr xs => rfl
    | obj o => rfl

/-! ## Claims about `parse_order` -/

/-- C4 counterexample: a backend JSON object with no "quantity" key
normalizes to quantity `None` (null), not to the claimed default 1. -/
theorem c4_counterexample :
    parse_order "anything" (some "ep") (some "key") (some "dep")
      (BackendOutcome.contentJson [("item", Json.str "apples")]) =
      Json.obj [("quantity", Json.null), ("item", Json.str "apples")] ∧
    Json.null ≠ Json.num 1 :=
  ⟨rfl, by simp⟩

/-- C4 (amended): during normalization of a backend item, a missing or
invalid (unconvertible) quantity is coerced to `None` (JSON null), never to
a default of 1 and never to a failure. -/
theorem c4_missing_quantity_becomes_null (text : String) (ep key dep : Option String)
    (o : List (String × Json))
    (hcfg : (truthy ep && truthy key && truthy dep) = true)
    (hq : (pyGet o "quantity").getD Json.null = Json.null ∨
          pyInt ((pyGet o "quantity").getD Json.null) = none) :
    jsonObjGet (parse_order text ep key dep (BackendOutcome.contentJson o)) "quantity"
      = Json.null := by
  have hn := normQuantity_null_of _ hq
  simp [parse_order, hcfg, jsonObjGet, pyGet, hn]

/-- C4 witness: a backend object with no quantity key at a concrete
configured input. -/
theorem c4_witness :
    jsonObjGet (parse_order "t" (some "e") (some "k") (some "d")
      (BackendOutcome.contentJson [("item", Json.str "apples")])) "quantity"
      = Json.null :=
  c4_missing_quantity_becomes_null "t" (some "e") (some "k") (some "d")
    [("item", Json.str "apples")] rfl (Or.inl rfl)

/-- C10 counterexample: a backend JSON object whose "item" value is the
number 5 is returned unchanged, so the returned item is neither `None` nor
a string, falsifying the claimed shape invariant. -/
theorem c10_counterexample :
    parse_order "x" (some "e") (some "k") (some "d")
      (BackendOutcome.contentJson [("quantity", Json.num 1), ("item", Json.num 5)]) =
      Json.obj [("quantity", Json.num 1), ("item", Json.num 5)] ∧
    (Json.num 5).isStr = false ∧ Json.num 5 ≠ Json.null :=
  ⟨rfl, rfl, by simp⟩

/-- C10 (amended): `parse_order` is total and returns a dict with exactly
the keys "quantity" and "item"; "quantity" is an integer or `None`; "item"
is `None`, or a stripped-and-lowercased string, or — on the backend-JSON
path only — the raw non-string backend "item" value returned unchanged. -/
theorem c10_parse_order_shape (text : String) (ep key dep : Option String)
    (bo : BackendOutcome) :
    ∃ q it, parse_order text ep key dep bo = Json.obj [("quantity", q), ("item", it)] ∧
      (q = Json.null ∨ ∃ n, q = Json.num n) ∧
      (it = Json.null ∨ (∃ s, it = Json.str (pyLower (pyStrip s))) ∨
        ∃ o, bo = BackendOutcome.contentJson o ∧
          it = (pyGet o "item").getD Json.null) := by
  unfold parse_order
  split
  · cases bo with
    | raises =>
        obtain ⟨q, it, he, hq, hi⟩ := regexFallback_shape text
        exact ⟨q, it, he, hq, hi.imp id Or.inl⟩
    | contentNoJson =>
        obtain ⟨q, it, he, hq, hi⟩ := regexFallback_shape text
        exact ⟨q, it, he, hq, hi.imp id Or.inl⟩
    | contentJson o =>
        refine ⟨_, _, rfl, normQuantity_shape _, ?_⟩
        cases hv : (pyGet o "item").getD Json.null with
        | null => exact Or.inl rfl
        | str s => exact Or.inr (Or.inl ⟨s, rfl⟩)
        | bool b => exact Or.inr (Or.inr ⟨o, rfl, by rw [hv]; rfl⟩)
        | num n => exact Or.inr (Or.inr ⟨o, rfl, by rw [hv]; rfl⟩)
        | arr xs => exact Or.inr (Or.inr ⟨o, rfl, by rw [hv]; rfl⟩)
        | obj o2 => exact Or.inr (Or.inr ⟨o, rfl, by rw [hv]; rfl⟩)
  · obtain ⟨q, it, he, hq, hi⟩ := regexFallback_shape text
    exact ⟨q, it, he, hq, hi.imp id Or.inl⟩

/-! ## Fixtures and helpers for the pipeline claims -/

/-- A fully configured environment (all seven required settings truthy);
speech↔key/region and the OpenAI deployment are unset, which the required-
settings check of line 48 does not inspect. -/
def envFull : Env :=
  { blobConnStr := some "conn", blobContainer := some "cont",
    excelBlobName := some "orders.xlsx", speechKey := none, speechRegion := none,
    speechLanguages := none, openaiEndpoint := some "ep", openaiKey := some "okey",
    openaiDeployment := none, twilioSid := some "sid", twilioAuth := some "auth" }

/-- `envFull` with the OpenAI key removed. -/
def envNoOpenAIKey : Env := { envFull with openaiKey := none }

/-- A Twilio voice-note form payload. -/
def formVoice : List (String × String) :=
  [("MediaUrl0", "http://media/voice.ogg"), ("From", "whatsapp:+100")]

/-- A form payload with no media URL field. -/
def formNoMedia : List (String × String) := [("From", "whatsapp:+100")]

/-- Workbook oracle: no existing workbook (download fails, a fresh one is
created), save and upload succeed. -/
def logFreshOk : LogWorld :=
  { fetch := Except.error (), loadOk := true, saveOk := true, uploadOk := true }

/-- Workbook oracle where `wb.save` raises. -/
def logSaveFails : LogWorld := { logFreshOk with saveOk := false }

/-- A request world where every external step succeeds. -/
def worldOk : World :=
  { download := DownloadOutcome.ok "/tmp/voice.ogg",
    upload := Except.ok "http://blob/voices/x.ogg",
    tw := { blobFetch := Except.ok (), speech := SpeechOutcome.noMatch },
    backend := BackendOutcome.raises,
    log := logFreshOk,
    now := "2026-01-01T00:00:00" }

/-- `worldOk` except that the workbook save raises. -/
def worldLogFail : World := { worldOk with log := logSaveFails }

/-- The effects record of a request that reached the logging step. -/
def pipelineEffects (leak : Bool) : Effects :=
  { downloadCalled := true, uploadCalled := true, transcribeCalled := true,
    parseCalled := true, logCalled := true, excelTempLive := leak }

/-- `send_confirmation` is commented out (line 110): no path of `main`
notifies the customer. -/
theorem main_never_notifies (env : Env) (form : List (String × String)) (w : World) :
    (OrderWebhook.main env form w).2.notifyCalled = false := by
  simp only [OrderWebhook.main]
  repeat' split
  all_goals rfl

/-- When the blob copy downloads, `transcribe_audio` returns some text. -/
theorem transcribe_ok_of_fetch (tw : TranscribeWorld) (k r : Option String)
    (hb : tw.blobFetch = Except.ok ()) :
    ∃ t, transcribe_audio tw k r = Except.ok t := by
  have hred : transcribe_audio tw k r =
      (if (truthy k && truthy r) = true then
        match tw.speech with
        | SpeechOutcome.sdkImportFails => Except.ok ""
        | SpeechOutcome.recognized t => Except.ok t
        | SpeechOutcome.noMatch => Except.ok ""
        | SpeechOutcome.canceled => Except.ok ""
      else Except.ok "") := by
    unfold transcribe_audio
    rw [hb]
  rw [hred]
  by_cases hkr : (truthy k && truthy r) = true
  · rw [if_pos hkr]
    cases tw.speech <;> exact ⟨_, rfl⟩
  · rw [if_neg hkr]
    exact ⟨"", rfl⟩

/-- `main` beyond the transcription step: the result is decided by whether
`log_to_excel` raises. -/
theorem main_log_eq (env : Env) (form : List (String × String)) (w : World)
    (p u t : String)
    (he : envOk env = true) (hm : ¬ mediaUrl form = "")
    (hd : w.download = DownloadOutcome.ok p)
    (hu : w.upload = Except.ok u)
    (ht : transcribe_audio w.tw env.speechKey env.speechRegion = Except.ok t) :
    OrderWebhook.main env form w =
      (if logFails w.log = true then
        (⟨500, Body.text "Internal server error"⟩, pipelineEffects true)
      else
        (⟨200, Body.json (Json.obj
            [("status", Json.str "ok"),
             ("order", parse_order t env.openaiEndpoint env.openaiKey
                env.openaiDeployment w.backend),
             ("blob_url", Json.str u)])⟩, pipelineEffects false)) := by
  cases hlf : logFails w.log with
  | true =>
      simp [OrderWebhook.main, he, hm, hd, hu, ht, log_to_excel_eq, hlf, pipelineEffects]
  | false =>
      simp [OrderWebhook.main, he, hm, hd, hu, ht, log_to_excel_eq, hlf, pipelineEffects]

/-! ## Claims about the handler pipeline -/

/-- C7: with any of the seven required settings (blob connection string,
container, workbook name, OpenAI endpoint, OpenAI key, Twilio auth, Twilio
SID) absent or empty, `main` returns HTTP 500 "Missing environment
variables" before any parsing or downstream step: no download,
transcription, extraction, log write or notification happens and no temp
file is created. -/
theorem c7_missing_env_fails_fast (env : Env) (form : List (String × String))
    (w : World)
    (h : truthy env.blobConnStr = false ∨ truthy env.blobContainer = false ∨
         truthy env.excelBlobName = false ∨ truthy env.openaiEndpoint = false ∨
         truthy env.openaiKey = false ∨ truthy env.twilioAuth = false ∨
         truthy env.twilioSid = false) :
    OrderWebhook.main env form w =
      (⟨500, Body.text "Missing environment variables"⟩, noEffects) := by
  have he : envOk env = false := by
    unfold envOk
    rcases h with h | h | h | h | h | h | h <;> simp [h]
  simp [OrderWebhook.main, he]

/-- C7 witness: a concrete environment lacking the OpenAI key. -/
theorem c7_witness :
    OrderWebhook.main envNoOpenAIKey formVoice worldOk =
      (⟨500, Body.text "Missing environment variables"⟩, noEffects) :=
  c7_missing_env_fails_fast envNoOpenAIKey formVoice worldOk
    (Or.inr (Or.inr (Or.inr (Or.inr (Or.inl rfl)))))

/-- C2 counterexample: a fully configured handler given a payload with no
media URL returns HTTP 400 — not a 200-class ("accepted/success")
response as claimed — while indeed performing no downstream calls. -/
theorem c2_counterexample :
    OrderWebhook.main envFull formNoMedia worldOk =
      (⟨400, Body.text "No media found"⟩, noEffects) ∧
    ¬(200 ≤ (OrderWebhook.main envFull formNoMedia worldOk).1.status ∧
      (OrderWebhook.main envFull formNoMedia worldOk).1.status < 300) :=
  ⟨rfl, by decide⟩

/-- C2 (amended): for every configured environment, a payload whose
`MediaUrl0`/`MediaUrl` fields are missing or empty yields HTTP 400 with
body "No media found", and no downstream call is made: no download, no
transcription, no extraction, no log write, no notification. -/
theorem c2_no_media_returns_400 (env : Env) (form : List (String × String))
    (w : World) (he : envOk env = true) (hm : mediaUrl form = "") :
    OrderWebhook.main env form w =
      (⟨400, Body.text "No media found"⟩, noEffects) := by
  simp [OrderWebhook.main, he, hm]

/-- C2 witness: the concrete no-media payload. -/
theorem c2_witness :
    OrderWebhook.main envFull formNoMedia worldOk =
      (⟨400, Body.text "No media found"⟩, noEffects) :=
  c2_no_media_returns_400 envFull formNoMedia worldOk rfl rfl

/-- C3 counterexample: with no speech key configured the transcription is
the blank string, yet extraction IS called, the order IS logged, and the
handler returns the ordinary success JSON — not a "could not understand
audio" message, contradicting the claimed short-circuit. -/
theorem c3_counterexample :
    transcribe_audio worldOk.tw envFull.speechKey envFull.speechRegion =
      Except.ok "" ∧
    (OrderWebhook.main envFull formVoice worldOk).2.parseCalled = true ∧
    (OrderWebhook.main envFull formVoice worldOk).2.logCalled = true ∧
    (OrderWebhook.main envFull formVoice worldOk).1 =
      ⟨200, Body.json (Json.obj [("status", Json.str "ok"),
        ("order", noItemsOrder),
        ("blob_url", Json.str "http://blob/voices/x.ogg")])⟩ :=
  ⟨rfl, rfl, rfl, rfl⟩

/-- C3 (amended): a blank transcription does not short-circuit the
pipeline: extraction is still invoked (on the blank text) and the log
append still happens; when the log step succeeds the handler returns the
ordinary 200 success JSON, with no "could not understand audio" message on
any path. -/
theorem c3_blank_transcript_not_short_circuited (env : Env)
    (form : List (String × String)) (w : World) (p u : String)
    (he : envOk env = true) (hm : ¬ mediaUrl form = "")
    (hd : w.download = DownloadOutcome.ok p)
    (hu : w.upload = Except.ok u)
    (ht : transcribe_audio w.tw env.speechKey env.speechRegion = Except.ok "") :
    (OrderWebhook.main env form w).2.parseCalled = true ∧
    (OrderWebhook.main env form w).2.logCalled = true ∧
    (logFails w.log = false →
      ∃ ord, (OrderWebhook.main env form w).1 =
        ⟨200, Body.json (Json.obj [("status", Json.str "ok"), ("order", ord),
          ("blob_url", Json.str u)])⟩) := by
  have h := main_log_eq env form w p u "" he hm hd hu ht
  refine ⟨?_, ?_, ?_⟩
  · rw [h]; split <;> rfl
  · rw [h]; split <;> rfl
  · intro hl
    exact ⟨parse_order "" env.openaiEndpoint env.openaiKey env.openaiDeployment
      w.backend, by rw [h]; simp [hl]⟩

/-- C3 witness: the concrete blank-transcription run. -/
theorem c3_witness :
    (OrderWebhook.main envFull formVoice worldOk).2.parseCalled = true ∧
    (OrderWebhook.main envFull formVoice worldOk).2.logCalled = true ∧
    (∃ ord, (OrderWebhook.main envFull formVoice worldOk).1 =
      ⟨200, Body.json (Json.obj [("status", Json.str "ok"), ("order", ord),
        ("blob_url", Json.str "http://blob/voices/x.ogg")])⟩) :=
  ⟨(c3_blank_transcript_not_short_circuited envFull formVoice worldOk
      "/tmp/voice.ogg" "http://blob/voices/x.ogg" rfl (by decide) rfl rfl rfl).1,
   (c3_blank_transcript_not_short_circuited envFull formVoice worldOk
      "/tmp/voice.ogg" "http://blob/voices/x.ogg" rfl (by decide) rfl rfl rfl).2.1,
   (c3_blank_transcript_not_short_circuited envFull formVoice worldOk
      "/tmp/voice.ogg" "http://blob/voices/x.ogg" rfl (by decide) rfl rfl rfl).2.2 rfl⟩

/-- If the handler effects show the log step ran, every earlier pipeline
stage succeeded. -/
theorem main_reached_log (env : Env) (form : List (String × String)) (w : World)
    (hlc : (OrderWebhook.main env form w).2.logCalled = true) :
    envOk env = true ∧ (¬ mediaUrl form = "") ∧
    (∃ p, w.download = DownloadOutcome.ok p) ∧
    (∃ u, w.upload = Except.ok u) ∧
    (∃ t, transcribe_audio w.tw env.speechKey env.speechRegion = Except.ok t) := by
  simp only [OrderWebhook.main] at hlc
  repeat' split at hlc
  all_goals first
    | (simp [noEffects] at hlc; done)
    | exact ⟨by simp_all, by assumption, ⟨_, by assumption⟩, ⟨_, by assumption⟩,
        ⟨_, by assumption⟩⟩

/-- C5 counterexample: with the workbook save raising, the handler answers
HTTP 500 and no customer notification happens — the log failure does
prevent the customer-facing response, contradicting the claimed
independence of the two side effects. -/
theorem c5_counterexample :
    (OrderWebhook.main envFull formVoice worldLogFail).1 =
      ⟨500, Body.text "Internal server error"⟩ ∧
    (OrderWebhook.main envFull formVoice worldLogFail).2.logCalled = true ∧
    (OrderWebhook.main envFull formVoice worldLogFail).2.notifyCalled = false :=
  ⟨rfl, rfl, rfl⟩

/-- C5 (amended): the two side effects are not independent: a log-append
failure propagates to the top-level handler, which returns HTTP 500; and no
customer notification is ever sent on any path (the confirmation step is
commented out in the source). -/
theorem c5_log_failure_aborts_request (env : Env) (form : List (String × String))
    (w : World) :
    (OrderWebhook.main env form w).2.notifyCalled = false ∧
    ((OrderWebhook.main env form w).2.logCalled = true → logFails w.log = true →
      (OrderWebhook.main env form w).1 = ⟨500, Body.text "Internal server error"⟩) := by
  refine ⟨main_never_notifies env form w, ?_⟩
  intro hlc hlf
  obtain ⟨he, hm, ⟨p, hd⟩, ⟨u, hu⟩, ⟨t, ht⟩⟩ := main_reached_log env form w hlc
  have h := main_log_eq env form w p u t he hm hd hu ht
  rw [h]
  simp [hlf, pipelineEffects]

/-- C5 witness: the concrete failing-log run. -/
theorem c5_witness :
    (OrderWebhook.main envFull formVoice worldLogFail).1 =
      ⟨500, Body.text "Internal server error"⟩ :=
  (c5_log_failure_aborts_request envFull formVoice worldLogFail).2 rfl rfl

/-- C6 counterexample: when `wb.save` raises inside `log_to_excel`, the
workbook temp copy is still on disk after the handler exits (with HTTP
500), contradicting the claim that every temporary file is removed on
every exit path. -/
theorem c6_counterexample :
    (OrderWebhook.main envFull formVoice worldLogFail).2.excelTempLive = true ∧
    (OrderWebhook.main envFull formVoice worldLogFail).1.status = 500 :=
  ⟨rfl, rfl⟩

/-- C6 (amended): the transcription temp copy is removed on every exit
path (its removal is inside a finally); the downloaded audio file can
survive only when `download_voice` raises after creating it (the exception
then bypasses the inner finally); and the workbook temp copy survives
exactly the paths on which `log_to_excel` raises, because its cleanup is
not in a finally. -/
theorem c6_cleanup_except_leaks (env : Env) (form : List (String × String))
    (w : World) :
    (OrderWebhook.main env form w).2.speechTempLive = false ∧
    ((OrderWebhook.main env form w).2.audioTempLive = true →
      w.download = DownloadOutcome.failAfterCreate) ∧
    ((OrderWebhook.main env form w).2.excelTempLive = true →
      (OrderWebhook.main env form w).2.logCalled = true ∧ logFails w.log = true) := by
  generalize hR : OrderWebhook.main env form w = R
  obtain ⟨resp, eff⟩ := R
  simp only [OrderWebhook.main, log_to_excel_eq] at hR
  repeat' split at hR
  all_goals (injection hR with hR1 hR2; subst hR1; subst hR2)
  all_goals refine ⟨by simp [noEffects], fun ha => ?_, fun hx => ?_⟩
  all_goals first
    | assumption
    | (simp_all [noEffects]; done)
    | (cases hlf : logFails w.log <;> simp_all [noEffects])

/-- C6 witness: at the concrete failing-log run the leaked file is the
workbook copy of a request whose log step raised. -/
theorem c6_witness :
    (OrderWebhook.main envFull formVoice worldLogFail).2.logCalled = true ∧
    logFails worldLogFail.log = true :=
  (c6_cleanup_except_leaks envFull formVoice worldLogFail).2.2 rfl

/-- C8 counterexample: the header row the code writes on lazy creation is
`[timestamp_utc, customer_number, item, quantity]` — the fourth column is
the quantity, and no total column exists (the code records no prices) —
differing from the claimed columns `[timestamp, customer, item summary,
total]`. -/
theorem c8_counterexample :
    (log_to_excel noItemsOrder "cust" "ts0" logFreshOk).1 =
      Except.ok [excelHeader,
        [Json.str "ts0", Json.str "cust", Json.null, Json.null]] ∧
    excelHeader ≠ specLogHeader := by
  refine ⟨rfl, ?_⟩
  intro h
  simp [excelHeader, specLogHeader] at h

/-- C8 (amended): when the workbook download fails, `log_to_excel` lazily
creates a new workbook whose header row is exactly
`[timestamp_utc, customer_number, item, quantity]` and appends exactly one
record `[timestamp, customer, item, quantity]` for the order. -/
theorem c8_fresh_workbook_header_and_single_append (order : Json)
    (customer ts : String) (lw : LogWorld)
    (hf : lw.fetch = Except.error ()) (hs : lw.saveOk = true)
    (hu : lw.uploadOk = true) :
    log_to_excel order customer ts lw =
      (Except.ok [excelHeader, orderRow ts customer order], false) := by
  unfold log_to_excel
  rw [hf]
  simp [hs, hu]

/-- C8 witness: the concrete fresh-workbook append. -/
theorem c8_witness :
    log_to_excel noItemsOrder "whatsapp:+100" "2026-01-01T00:00:00" logFreshOk =
      (Except.ok [excelHeader,
        orderRow "2026-01-01T00:00:00" "whatsapp:+100" noItemsOrder], false) :=
  c8_fresh_workbook_header_and_single_append noItemsOrder "whatsapp:+100"
    "2026-01-01T00:00:00" logFreshOk rfl rfl rfl

/-- C9 counterexample: a fully successful run answers HTTP 200 whose JSON
body is `{"status": "ok", "order": ..., "blob_url": ...}`, which is not the
claimed body `{"status": "success"}`. -/
theorem c9_counterexample :
    (OrderWebhook.main envFull formVoice worldOk).1 =
      ⟨200, Body.json (Json.obj [("status", Json.str "ok"),
        ("order", noItemsOrder),
        ("blob_url", Json.str "http://blob/voices/x.ogg")])⟩ ∧
    Json.obj [("status", Json.str "ok"), ("order", noItemsOrder),
        ("blob_url", Json.str "http://blob/voices/x.ogg")] ≠ specSuccessBody := by
  refine ⟨rfl, ?_⟩
  intro h
  simp [specSuccessBody, noItemsOrder] at h

/-- C9 (amended): on every fully successful run the handler returns HTTP
200 with the JSON body `{"status": "ok", "order": <parsed order>,
"blob_url": <uploaded blob url>}`. -/
theorem c9_success_response (env : Env) (form : List (String × String))
    (w : World) (p u : String)
    (he : envOk env = true) (hm : ¬ mediaUrl form = "")
    (hd : w.download = DownloadOutcome.ok p)
    (hu : w.upload = Except.ok u)
    (hb : w.tw.blobFetch = Except.ok ())
    (hl : logFails w.log = false) :
    ∃ ord, (OrderWebhook.main env form w).1 =
      ⟨200, Body.json (Json.obj [("status", Json.str "ok"), ("order", ord),
        ("blob_url", Json.str u)])⟩ := by
  obtain ⟨t, ht⟩ := transcribe_ok_of_fetch w.tw env.speechKey env.speechRegion hb
  have h := main_log_eq env form w p u t he hm hd hu ht
  exact ⟨parse_order t env.openaiEndpoint env.openaiKey env.openaiDeployment
    w.backend, by rw [h]; simp [hl]⟩

/-- C9 witness: the concrete fully successful run. -/
theorem c9_witness :
    ∃ ord, (OrderWebhook.main envFull formVoice worldOk).1 =
      ⟨200, Body.json (Json.obj [("status", Json.str "ok"), ("order", ord),
        ("blob_url", Json.str "http://blob/voices/x.ogg")])⟩ :=
  c9_success_response envFull formVoice worldOk "/tmp/voice.ogg"
    "http://blob/voices/x.ogg" rfl (by decide) rfl rfl rfl rfl
